import Mathlib

/-!
Shallow embedding of the `library` Django app (admin-gzx/library):
a library-management REST backend with Book / Reader / BorrowRecord
entities, a borrow/return workflow that adjusts `Book.available_copies`,
and a Redis read-through cache for list/detail responses.

The embedding follows `src/library/views.py` and
`src/library/serializers.py`.  The ORM models (`models.py`) are not in
the sources; their fields are modelled from the spec (section 3, DATA
MODEL): `total_copies` and `available_copies` are non-negative integers
(hence `Nat` here), `return_date` is nullable, dates are totally ordered
(modelled as `Int`).

HTTP responses are reduced to their status class, and each endpoint is a
function from the store state (plus the request payload and, where the
code reads the server clock, a `now` parameter) to a status together
with the next state.
-/

namespace Library

/-- HTTP status classes used by the endpoints of `views.py`:
201 on creation, 200 on plain success, 204 on delete, 400 for
validation/business-rule failures, 404 for a missing object, and a
server-error class for paths that only an integrity violation of the
store could reach. -/
inductive Http where
  | ok
  | created
  | noContent
  | badRequest
  | notFound
  | serverError
deriving Repr, DecidableEq

/-- Modelled from the spec: `models.py` is absent from the sources.
Spec section 3: Book carries title metadata plus `total_copies` and
`available_copies`, both non-negative integers.  The metadata fields
play no role in any claim and are collapsed into `title`. -/
structure Book where
  title : String
  total_copies : Nat
  available_copies : Nat
deriving Repr, DecidableEq

/-- Modelled from the spec: BorrowRecord holds foreign keys to one Book
and one Reader, required `borrow_date` and `due_date`, and a nullable
`return_date` (null = currently borrowed).  Entities are keyed by `Nat`
ids; dates are modelled as `Int`. -/
structure BorrowRecord where
  book : Nat
  reader : Nat
  borrow_date : Int
  due_date : Int
  return_date : Option Int
deriving Repr, DecidableEq

/-- The persistent state: the relational rows (assoc lists keyed by id)
plus the set of currently present Redis cache keys.  Reader rows carry
no data any claim depends on, so only their ids are kept. -/
structure LibState where
  books : List (Nat × Book)
  readers : List Nat
  borrows : List (Nat × BorrowRecord)
  cache : List String
deriving Repr, DecidableEq

/-- `Model.objects.get(id=k)` on an assoc list. -/
def findId {α : Type} : List (Nat × α) → Nat → Option α
  | [], _ => none
  | (k', v) :: rest, k => if k' = k then some v else findId rest k

/-- `row.save()` on an assoc list: replace the value stored at key `k`. -/
def setId {α : Type} (l : List (Nat × α)) (k : Nat) (v : α) : List (Nat × α) :=
  l.map (fun p => if p.1 = k then (k, v) else p)

/-- `REDIS_CONNECTION.delete(key)`: the key is no longer present. -/
def cacheDelete (cache : List String) (key : String) : List String :=
  cache.filter (fun k => k ≠ key)

/-- views.py line 33: `cache_key = f"{CACHE_PREFIX}books:list"` with
`CACHE_PREFIX = 'library:'`.  `BookViewSet.list` computes this key
without consulting the request, so the query parameters (search term,
filter values, ordering) are an ignored argument here. -/
def bookListCacheKey (queryParams : List (String × String)) : String :=
  "library:books:list"

/-- views.py line 108: the cache key of `ReaderViewSet.list`, likewise
independent of the request's query parameters. -/
def readerListCacheKey (queryParams : List (String × String)) : String :=
  "library:readers:list"

/-- views.py line 51: detail cache key `library:books:{id}`. -/
def bookDetailKey (id : Nat) : String :=
  "library:books:" ++ toString id

/-- serializers.py lines 14-20, `BookSerializer.validate`: reject when
`data.get('available_copies', 0) > data.get('total_copies', 0)`.
`true` means the data passes.  The arguments are the fields present in
the request payload (absent on a partial update). -/
def bookSerializerValidate (avail? total? : Option Nat) : Bool :=
  !(avail?.getD 0 > total?.getD 0)

/-- Payload of `POST /books/`. -/
structure BookCreateReq where
  title : String
  total_copies : Nat
  available_copies : Nat
deriving Repr, DecidableEq

/-- Payload of `PUT/PATCH /books/{id}/`: on PATCH any field may be
absent; a PUT supplies every field. -/
structure BookUpdateReq where
  title : Option String
  total_copies : Option Nat
  available_copies : Option Nat
deriving Repr, DecidableEq

/-- Apply the validated fields of an update payload to the stored row
(DRF `ModelSerializer.update`: only supplied fields change). -/
def applyBookUpdate (b : Book) (req : BookUpdateReq) : Book :=
  { title := req.title.getD b.title
    total_copies := req.total_copies.getD b.total_copies
    available_copies := req.available_copies.getD b.available_copies }

/-- views.py lines 66-73, `BookViewSet.create`: `super().create` runs
`BookSerializer` (raising 400 before the cache delete on invalid data),
inserts the row, then deletes the `books:list` cache key and returns
201. -/
def bookCreate (st : LibState) (newId : Nat) (req : BookCreateReq) :
    Http × LibState :=
  if bookSerializerValidate (some req.available_copies) (some req.total_copies) then
    (Http.created,
      { st with
          books := (newId, ⟨req.title, req.total_copies, req.available_copies⟩) :: st.books
          cache := cacheDelete st.cache (bookListCacheKey []) })
  else
    (Http.badRequest, st)

/-- views.py lines 75-84, `BookViewSet.update` (PUT and PATCH):
`super().update` finds the row (404 if absent), runs
`BookSerializer.validate` on the supplied fields (an exception skips
the cache deletes), saves, then deletes the `books:list` and
`books:{id}` cache keys. -/
def bookUpdate (st : LibState) (id : Nat) (req : BookUpdateReq) :
    Http × LibState :=
  match findId st.books id with
  | none => (Http.notFound, st)
  | some b =>
    if bookSerializerValidate req.available_copies req.total_copies then
      (Http.ok,
        { st with
            books := setId st.books id (applyBookUpdate b req)
            cache := cacheDelete (cacheDelete st.cache (bookListCacheKey []))
                       (bookDetailKey id) })
    else
      (Http.badRequest, st)

/-- Payload of `POST /borrows/` and of a generic `PUT /borrows/{id}/`:
the writable fields of `BorrowRecordSerializer` (serializers.py lines
38-42), which include `return_date`. -/
structure BorrowCreateReq where
  book : Nat
  reader : Nat
  borrow_date : Int
  due_date : Int
  return_date : Option Int
deriving Repr, DecidableEq

/-- views.py lines 181-219, `BorrowRecordViewSet.create`.
`serializer.is_valid(raise_exception=True)` runs first:
DRF's `PrimaryKeyRelatedField` rejects a `book` or `reader` id with no
row (a 400 validation error, reached before the view's
`Book.DoesNotExist` handler), then `BorrowRecordSerializer.validate`
(serializers.py lines 44-58) rejects `borrow_date > due_date` and, for
a creation, `book.available_copies <= 0`.  On success the view
decrements `available_copies`, saves the book, inserts the record,
deletes the `books:list` and `books:{book_id}` cache keys, and returns
201.  The view's own `available_copies <= 0` re-check (line 191) tests
the same state the serializer just accepted, so it is folded into the
single availability test here; its 404 branch (line 215) is behind the
serializer's existence check. -/
def borrowCreate (st : LibState) (newId : Nat) (req : BorrowCreateReq) :
    Http × LibState :=
  match findId st.books req.book with
  | none => (Http.badRequest, st)
  | some book =>
    if req.reader ∉ st.readers then
      (Http.badRequest, st)
    else if req.borrow_date > req.due_date then
      (Http.badRequest, st)
    else if book.available_copies ≤ 0 then
      (Http.badRequest, st)
    else
      (Http.created,
        { st with
            books := setId st.books req.book
              { book with available_copies := book.available_copies - 1 }
            borrows := (newId,
              ⟨req.book, req.reader, req.borrow_date, req.due_date,
               req.return_date⟩) :: st.borrows
            cache := cacheDelete (cacheDelete st.cache (bookListCacheKey []))
                       (bookDetailKey req.book) })

/-- serializers.py lines 61-71, `BorrowReturnSerializer`: validates a
supplied `return_date` against the record's `borrow_date` (`true` means
valid).  This serializer is defined but never imported by `views.py`;
`return_book` below never invokes it. -/
def borrowReturnSerializerValid (borrow_date value : Int) : Bool :=
  !(value < borrow_date)

/-- views.py lines 221-250, `BorrowRecordViewSet.return_book`
(`POST /borrows/{pk}/return_book/`): `get_object` (404 if the record is
absent); 400 if `return_date` is already set; otherwise set
`return_date = timezone.now()` — the request body, including any
supplied `return_date`, is never read — save the record, increment the
book's `available_copies` with no upper-bound check, save it, delete
the `books:list` and `books:{book.id}` cache keys, and return 200.
The record's `book` foreign key always resolves in the store (modelled
from the spec: referential validity is delegated to the store), so the
`serverError` branch is unreachable from a state with intact
references. -/
def return_book (st : LibState) (pk : Nat) (now : Int)
    (supplied_return_date : Option Int) : Http × LibState :=
  match findId st.borrows pk with
  | none => (Http.notFound, st)
  | some r =>
    match r.return_date with
    | some _ => (Http.badRequest, st)
    | none =>
      match findId st.books r.book with
      | none => (Http.serverError, st)
      | some book =>
        (Http.ok,
          { st with
              borrows := setId st.borrows pk { r with return_date := some now }
              books := setId st.books r.book
                { book with available_copies := book.available_copies + 1 }
              cache := cacheDelete (cacheDelete st.cache (bookListCacheKey []))
                         (bookDetailKey r.book) })

/-- views.py lines 173-179: `BorrowRecordViewSet` declares no `update`,
so `PUT /borrows/{id}/` is the stock `ModelViewSet.update`: find the
record (404), run `BorrowRecordSerializer` field validation and
`validate` (with `self.instance` set, so the availability check on
lines 54-56 of serializers.py is skipped), save the record.  It touches
neither any Book row nor the cache. -/
def borrowUpdate (st : LibState) (pk : Nat) (req : BorrowCreateReq) :
    Http × LibState :=
  match findId st.borrows pk with
  | none => (Http.notFound, st)
  | some _ =>
    match findId st.books req.book with
    | none => (Http.badRequest, st)
    | some _ =>
      if req.reader ∉ st.readers then
        (Http.badRequest, st)
      else if req.borrow_date > req.due_date then
        (Http.badRequest, st)
      else
        (Http.ok,
          { st with
              borrows := setId st.borrows pk
                ⟨req.book, req.reader, req.borrow_date, req.due_date,
                 req.return_date⟩ })

/-- `DELETE /borrows/{id}/`, likewise the stock `ModelViewSet.destroy`:
find the record (404) and delete the row.  No Book row and no cache key
is touched. -/
def borrowDestroy (st : LibState) (pk : Nat) : Http × LibState :=
  match findId st.borrows pk with
  | none => (Http.notFound, st)
  | some _ =>
    (Http.noContent,
      { st with borrows := st.borrows.filter (fun p => p.1 ≠ pk) })

/-- The spec's Book invariant on a single row:
`available_copies <= total_copies` (the lower bound `0 <=` is carried
by the `Nat` field type, modelled from the spec's non-negative
integers). -/
def bookInv (b : Book) : Prop :=
  b.available_copies ≤ b.total_copies

/-- The invariant over the whole store: every Book row satisfies
`bookInv`. -/
def stateInv (st : LibState) : Prop :=
  ∀ p ∈ st.books, bookInv p.2

instance (b : Book) : Decidable (bookInv b) := by
  unfold bookInv; infer_instance

instance (st : LibState) : Decidable (stateInv st) := by
  unfold stateInv; infer_instance

/-! ### Assoc-list lemmas -/

theorem findId_cons_self {α : Type} (k : Nat) (v : α) (l : List (Nat × α)) :
    findId ((k, v) :: l) k = some v := by
  simp [findId]

theorem setId_cons {α : Type} (a : Nat) (u : α) (rest : List (Nat × α))
    (k : Nat) (v : α) :
    setId ((a, u) :: rest) k v
      = (if a = k then (k, v) else (a, u)) :: setId rest k v := rfl

theorem findId_cons {α : Type} (a : Nat) (u : α) (rest : List (Nat × α))
    (k : Nat) :
    findId ((a, u) :: rest) k = if a = k then some u else findId rest k := rfl

theorem findId_setId_same {α : Type} (l : List (Nat × α)) (k : Nat) (v w : α)
    (h : findId l k = some w) : findId (setId l k v) k = some v := by
  induction l with
  | nil => simp [findId] at h
  | cons p rest ih =>
    obtain ⟨a, u⟩ := p
    rw [setId_cons]
    by_cases ha : a = k
    · subst ha
      rw [if_pos rfl, findId_cons, if_pos rfl]
    · rw [if_neg ha, findId_cons, if_neg ha]
      rw [findId_cons, if_neg ha] at h
      exact ih h

theorem findId_setId_other {α : Type} (l : List (Nat × α)) (k k' : Nat) (v : α)
    (h : k' ≠ k) : findId (setId l k v) k' = findId l k' := by
  induction l with
  | nil => rfl
  | cons p rest ih =>
    obtain ⟨a, u⟩ := p
    rw [setId_cons]
    by_cases ha : a = k
    · subst ha
      rw [if_pos rfl, findId_cons, findId_cons,
        if_neg (fun hek : a = k' => h hek.symm),
        if_neg (fun hek : a = k' => h hek.symm)]
      exact ih
    · rw [if_neg ha, findId_cons, findId_cons]
      by_cases hak : a = k'
      · rw [if_pos hak, if_pos hak]
      · rw [if_neg hak, if_neg hak]
        exact ih

theorem mem_of_findId {α : Type} (l : List (Nat × α)) (k : Nat) (v : α)
    (h : findId l k = some v) : (k, v) ∈ l := by
  induction l with
  | nil => simp [findId] at h
  | cons p rest ih =>
    obtain ⟨a, u⟩ := p
    by_cases ha : a = k
    · rw [findId_cons, if_pos ha] at h
      subst ha
      injection h with h
      subst h
      exact List.mem_cons_self _ _
    · rw [findId_cons, if_neg ha] at h
      exact List.mem_cons_of_mem _ (ih h)

theorem setId_forall {α : Type} (P : Nat × α → Prop) (l : List (Nat × α))
    (k : Nat) (v : α) (hl : ∀ q ∈ l, P q) (hv : P (k, v)) :
    ∀ q ∈ setId l k v, P q := by
  intro q hq
  rw [setId, List.mem_map] at hq
  obtain ⟨p, hp, hfq⟩ := hq
  by_cases hk : p.1 = k
  · rw [if_pos hk] at hfq
    exact hfq ▸ hv
  · rw [if_neg hk] at hfq
    exact hfq ▸ hl p hp

/-! ### Success-path characterisations of borrow and return -/

/-- When the serializer's checks pass (book exists, reader exists,
`borrow_date <= due_date`, a copy is available), `borrowCreate` returns
201, decrements the book's `available_copies`, inserts the record and
drops the two book cache keys. -/
theorem borrowCreate_eq (st : LibState) (newId : Nat) (req : BorrowCreateReq)
    (book : Book)
    (hb : findId st.books req.book = some book)
    (hrd : req.reader ∈ st.readers)
    (hdate : req.borrow_date ≤ req.due_date)
    (ha : 0 < book.available_copies) :
    borrowCreate st newId req =
      (Http.created,
        { st with
            books := setId st.books req.book
              { book with available_copies := book.available_copies - 1 }
            borrows := (newId,
              ⟨req.book, req.reader, req.borrow_date, req.due_date,
               req.return_date⟩) :: st.borrows
            cache := cacheDelete (cacheDelete st.cache (bookListCacheKey []))
                       (bookDetailKey req.book) }) := by
  unfold borrowCreate
  split
  · rename_i h0
    rw [hb] at h0
    simp at h0
  · rename_i b hsome
    rw [hb] at hsome
    injection hsome with hbe
    subst hbe
    rw [if_neg (not_not_intro hrd), if_neg (not_lt.mpr hdate),
      if_neg (by omega)]

/-- When the record exists, is not yet returned, and its book resolves,
`return_book` returns 200, stamps `return_date := now` (ignoring any
supplied date), increments the book's `available_copies` and drops the
two book cache keys. -/
theorem return_book_eq (st : LibState) (pk : Nat) (now : Int)
    (sup : Option Int) (r : BorrowRecord) (book : Book)
    (hr : findId st.borrows pk = some r)
    (hnone : r.return_date = none)
    (hb : findId st.books r.book = some book) :
    return_book st pk now sup =
      (Http.ok,
        { st with
            borrows := setId st.borrows pk { r with return_date := some now }
            books := setId st.books r.book
              { book with available_copies := book.available_copies + 1 }
            cache := cacheDelete (cacheDelete st.cache (bookListCacheKey []))
                       (bookDetailKey r.book) }) := by
  unfold return_book
  split
  · rename_i h0
    rw [hr] at h0
    simp at h0
  · rename_i r' hsome
    rw [hr] at hsome
    injection hsome with hre
    subst hre
    split
    · rename_i d hd
      rw [hnone] at hd
      simp at hd
    · split
      · rename_i h0
        rw [hb] at h0
        simp at h0
      · rename_i b hsome'
        rw [hb] at hsome'
        injection hsome' with hbe
        subst hbe
        rfl

/-! ### Concrete stores used by counterexamples and witnesses -/

/-- One book at full stock (`total_copies = available_copies = 2`) that
nevertheless has an outstanding unreturned borrow record.  Every Book
row satisfies the invariant `available_copies <= total_copies`. -/
def fullStockLoanSt : LibState :=
  { books := [(1, ⟨"Dune", 2, 2⟩)]
    readers := [7]
    borrows := [(5, ⟨1, 7, 0, 14, none⟩)]
    cache := [] }

/-- One book with one of two copies out on an unreturned loan. -/
def oneOutSt : LibState :=
  { books := [(1, ⟨"Dune", 2, 1⟩)]
    readers := [7]
    borrows := [(5, ⟨1, 7, 0, 14, none⟩)]
    cache := [] }

/-- One book with no available copies and no borrow records. -/
def noCopiesSt : LibState :=
  { books := [(1, ⟨"Dune", 2, 0⟩)]
    readers := [7]
    borrows := []
    cache := [] }

/-- A store with no books at all. -/
def noBooksSt : LibState :=
  { books := []
    readers := [7]
    borrows := []
    cache := [] }

/-- One book with one copy out on a loan whose `borrow_date` is day 10
and `due_date` day 30. -/
def lateLoanSt : LibState :=
  { books := [(1, ⟨"Dune", 2, 1⟩)]
    readers := [7]
    borrows := [(5, ⟨1, 7, 10, 30, none⟩)]
    cache := [] }

/-- One book with one of three copies available and no borrow records. -/
def freshSt : LibState :=
  { books := [(1, ⟨"Dune", 3, 1⟩)]
    readers := [7]
    borrows := []
    cache := [] }

/-- A passing `BookSerializer.validate` on a full payload means
`available_copies <= total_copies`. -/
theorem bookSerializerValidate_le {a t : Nat}
    (h : bookSerializerValidate (some a) (some t) = true) : a ≤ t := by
  unfold bookSerializerValidate at h
  simp only [Option.getD_some, Bool.not_eq_true', decide_eq_false_iff_not,
    not_lt] at h
  exact h

/-- A return attempt on a record whose `return_date` is already set
fails with 400 and leaves the state unchanged (views.py lines 227-231). -/
theorem return_book_already_returned (st : LibState) (pk : Nat)
    (now : Int) (sup : Option Int) (r : BorrowRecord) (d : Int)
    (hr : findId st.borrows pk = some r)
    (hd : r.return_date = some d) :
    return_book st pk now sup = (Http.badRequest, st) := by
  unfold return_book
  split
  · rename_i h0
    rw [hr] at h0
    simp at h0
  · rename_i r' hsome
    rw [hr] at hsome
    injection hsome with hre
    subst hre
    split
    · rfl
    · rename_i hn
      rw [hd] at hn
      simp at hn

/-! ### Claims -/

/-- C1: the claim is false as stated.  `fullStockLoanSt` satisfies the
invariant `0 <= available_copies <= total_copies`, yet returning its
outstanding borrow record (an operation of the system) drives the book
to `available_copies = 3 > 2 = total_copies`. -/
theorem C1_invariant_counterexample :
    stateInv fullStockLoanSt ∧
    ¬ stateInv (return_book fullStockLoanSt 5 3 none).2 := by
  decide

/-- C1 (amended): starting from any state satisfying the invariant,
`0 <= available_copies <= total_copies` still holds for every Book
after a book creation, after a full book update (both copy counts
supplied), and after a borrow creation; the lower bound is carried by
the non-negative field type.  (A return, by contrast, increments
`available_copies` with no upper-bound check — see the
counterexample.) -/
theorem C1_invariant_amended (st : LibState) (h : stateInv st) :
    (∀ newId req, stateInv (bookCreate st newId req).2) ∧
    (∀ id title? t a, stateInv (bookUpdate st id ⟨title?, some t, some a⟩).2) ∧
    (∀ newId req, stateInv (borrowCreate st newId req).2) := by
  refine ⟨?_, ?_, ?_⟩
  · intro newId req
    unfold bookCreate
    split
    · rename_i hval
      intro p hp
      rcases List.mem_cons.mp hp with rfl | hp'
      · exact bookSerializerValidate_le hval
      · exact h p hp'
    · exact h
  · intro id title? t a
    unfold bookUpdate
    split
    · exact h
    · rename_i b hsome
      split
      · rename_i hval
        intro p hp
        exact setId_forall (fun q => bookInv q.2) st.books id
          (applyBookUpdate b ⟨title?, some t, some a⟩) h
          (bookSerializerValidate_le hval) p hp
      · exact h
  · intro newId req
    unfold borrowCreate
    split
    · exact h
    · rename_i book hsome
      split
      · exact h
      · split
        · exact h
        · split
          · exact h
          · intro p hp
            exact setId_forall (fun q => bookInv q.2) st.books req.book
              { book with available_copies := book.available_copies - 1 } h
              (le_trans (Nat.sub_le _ _) (h _ (mem_of_findId _ _ _ hsome)))
              p hp

/-- C1 witness: the amended theorem applied to `freshSt` and a concrete
borrow request. -/
theorem C1_invariant_amended_witness :
    stateInv freshSt ∧ stateInv (borrowCreate freshSt 9 ⟨1, 7, 0, 14, none⟩).2 :=
  ⟨by decide, (C1_invariant_amended freshSt (by decide)).2.2 9 ⟨1, 7, 0, 14, none⟩⟩

/-- C2: a borrow-creation request for an existing book with no
available copies fails with 400 (the serializer's availability check,
serializers.py lines 54-56) and returns the state unchanged: no
BorrowRecord is inserted and the book row is untouched. -/
theorem C2_borrow_no_copies (st : LibState) (newId : Nat)
    (req : BorrowCreateReq) (b : Book)
    (hb : findId st.books req.book = some b)
    (h0 : b.available_copies = 0) :
    borrowCreate st newId req = (Http.badRequest, st) := by
  unfold borrowCreate
  split
  · rename_i hn
    simp [hb] at hn
  · rename_i b' hsome
    rw [hb] at hsome
    injection hsome with hbe
    subst hbe
    by_cases hrd : req.reader ∉ st.readers
    · rw [if_pos hrd]
    · rw [if_neg hrd]
      by_cases hdd : req.borrow_date > req.due_date
      · rw [if_pos hdd]
      · rw [if_neg hdd, if_pos (by omega)]

/-- C2 witness: `C2_borrow_no_copies` at `noCopiesSt`. -/
theorem C2_borrow_no_copies_witness :
    findId noCopiesSt.books 1 = some ⟨"Dune", 2, 0⟩ ∧
    borrowCreate noCopiesSt 9 ⟨1, 7, 0, 14, none⟩ = (Http.badRequest, noCopiesSt) :=
  ⟨rfl, C2_borrow_no_copies noCopiesSt 9 ⟨1, 7, 0, 14, none⟩ ⟨"Dune", 2, 0⟩ rfl rfl⟩

/-- C3: a first return of an unreturned record succeeds and increments
the book's `available_copies` by one; every further return attempt on
the same record fails with 400 and changes nothing, so across the first
return and any number of repeats the book gains exactly +1. -/
theorem C3_return_is_terminal (st : LibState) (pk : Nat)
    (r : BorrowRecord) (book : Book) (now : Int) (sup : Option Int)
    (hr : findId st.borrows pk = some r)
    (hnone : r.return_date = none)
    (hb : findId st.books r.book = some book) :
    (return_book st pk now sup).1 = Http.ok ∧
    findId (return_book st pk now sup).2.books r.book
      = some { book with available_copies := book.available_copies + 1 } ∧
    (∀ now2 sup2,
      return_book (return_book st pk now sup).2 pk now2 sup2
        = (Http.badRequest, (return_book st pk now sup).2)) ∧
    (∀ n now2 sup2,
      (fun s => (return_book s pk now2 sup2).2)^[n] (return_book st pk now sup).2
        = (return_book st pk now sup).2) := by
  have hmain := return_book_eq st pk now sup r book hr hnone hb
  have hsnd : (return_book st pk now sup).2 =
      { st with
          borrows := setId st.borrows pk { r with return_date := some now }
          books := setId st.books r.book
            { book with available_copies := book.available_copies + 1 }
          cache := cacheDelete (cacheDelete st.cache (bookListCacheKey []))
                     (bookDetailKey r.book) } := congrArg Prod.snd hmain
  have hagain : ∀ now2 sup2,
      return_book (return_book st pk now sup).2 pk now2 sup2
        = (Http.badRequest, (return_book st pk now sup).2) := by
    intro now2 sup2
    rw [hsnd]
    exact return_book_already_returned _ pk now2 sup2
      { r with return_date := some now } now
      (findId_setId_same st.borrows pk _ r hr) rfl
  refine ⟨congrArg Prod.fst hmain, ?_, hagain, ?_⟩
  · rw [hsnd]
    exact findId_setId_same st.books r.book _ book hb
  · intro n now2 sup2
    induction n with
    | zero => exact Function.iterate_zero_apply _ _
    | succ m ih =>
      rw [Function.iterate_succ_apply', ih]
      show (return_book (return_book st pk now sup).2 pk now2 sup2).2
        = (return_book st pk now sup).2
      rw [hagain now2 sup2]

/-- C3 witness: `C3_return_is_terminal` at `oneOutSt`. -/
theorem C3_return_is_terminal_witness :
    findId oneOutSt.borrows 5 = some ⟨1, 7, 0, 14, none⟩ ∧
    (return_book oneOutSt 5 3 none).1 = Http.ok :=
  ⟨rfl, (C3_return_is_terminal oneOutSt 5 ⟨1, 7, 0, 14, none⟩ ⟨"Dune", 2, 1⟩
    3 none rfl rfl rfl).1⟩

/-- C4: the claim is false as stated.  At `fullStockLoanSt` the book is
already at `available_copies = total_copies = 2`, yet returning the
outstanding record neither clamps nor rejects nor signals an error: it
answers 200 and stores `available_copies = 3 > 2`. -/
theorem C4_return_overflow_counterexample :
    (return_book fullStockLoanSt 5 3 none).1 = Http.ok ∧
    findId (return_book fullStockLoanSt 5 3 none).2.books 1
      = some ⟨"Dune", 2, 3⟩ :=
  ⟨rfl, rfl⟩

/-- C4 (amended): on a successful return the referenced book's
`available_copies` is incremented by exactly 1 unconditionally; no
upper bound against `total_copies` is checked and no data-integrity
error is signalled. -/
theorem C4_return_increments_unbounded (st : LibState) (pk : Nat)
    (r : BorrowRecord) (book : Book) (now : Int) (sup : Option Int)
    (hr : findId st.borrows pk = some r)
    (hnone : r.return_date = none)
    (hb : findId st.books r.book = some book) :
    (return_book st pk now sup).1 = Http.ok ∧
    findId (return_book st pk now sup).2.books r.book
      = some { book with available_copies := book.available_copies + 1 } := by
  have hmain := return_book_eq st pk now sup r book hr hnone hb
  refine ⟨congrArg Prod.fst hmain, ?_⟩
  rw [congrArg Prod.snd hmain]
  exact findId_setId_same st.books r.book _ book hb

/-- C4 witness: `C4_return_increments_unbounded` at `oneOutSt`. -/
theorem C4_return_increments_unbounded_witness :
    findId oneOutSt.borrows 5 = some ⟨1, 7, 0, 14, none⟩ ∧
    findId (return_book oneOutSt 5 3 none).2.books 1 = some ⟨"Dune", 2, 2⟩ :=
  ⟨rfl, (C4_return_increments_unbounded oneOutSt 5 ⟨1, 7, 0, 14, none⟩
    ⟨"Dune", 2, 1⟩ 3 none rfl rfl rfl).2⟩

/-- C5: the code contradicts the claim.  At `lateLoanSt` the loan has
`borrow_date = 10`; a return request supplying `return_date = 3` (which
`BorrowReturnSerializer` would reject, last conjunct) nevertheless
succeeds with 200, and the stored `return_date` is the server clock
(`now = 20`), not the supplied value: `return_book` never reads the
request body. -/
theorem C5_supplied_return_date_ignored :
    (return_book lateLoanSt 5 20 (some 3)).1 = Http.ok ∧
    findId (return_book lateLoanSt 5 20 (some 3)).2.borrows 5
      = some ⟨1, 7, 10, 30, some 20⟩ ∧
    findId (return_book lateLoanSt 5 20 (some 3)).2.books 1
      = some ⟨"Dune", 2, 2⟩ ∧
    borrowReturnSerializerValid 10 3 = false :=
  ⟨rfl, rfl, rfl, rfl⟩

/-- C6: the code contradicts the claim.  A borrow-creation request for
a book id with no row (`noBooksSt` has no books) is answered with 400 —
the serializer's primary-key validation fires before the view's
`Book.DoesNotExist` handler — not with the claimed 404. -/
theorem C6_missing_book_is_400 :
    borrowCreate noBooksSt 9 ⟨1, 7, 0, 14, none⟩
      = (Http.badRequest, noBooksSt) ∧
    Http.badRequest ≠ Http.notFound :=
  ⟨rfl, by decide⟩

/-- C7: the claim is false as stated.  Two list requests with different
query parameters (two different search terms) are keyed by the same
cache entry, because `BookViewSet.list` computes the constant key
`library:books:list`. -/
theorem C7_cache_key_counterexample :
    bookListCacheKey [("search", "tolstoy")]
      = bookListCacheKey [("search", "dickens")] ∧
    ([("search", "tolstoy")] : List (String × String))
      ≠ [("search", "dickens")] := by
  refine ⟨rfl, ?_⟩
  decide

/-- C7 (amended): the cache key of a list read is a constant per entity
type (`library:books:list`, `library:readers:list`), entirely
independent of the query parameters; hence all list requests for an
entity share one cache entry. -/
theorem C7_cache_key_constant (qp qp' : List (String × String)) :
    bookListCacheKey qp = bookListCacheKey qp' ∧
    bookListCacheKey qp = "library:books:list" ∧
    readerListCacheKey qp = readerListCacheKey qp' ∧
    readerListCacheKey qp = "library:readers:list" :=
  ⟨rfl, rfl, rfl, rfl⟩

/-- C8: a successful borrow creation followed by a successful return of
the same record restores the referenced book's row — in particular its
`available_copies` — to its pre-borrow value. -/
theorem C8_roundtrip (st : LibState) (newId : Nat) (req : BorrowCreateReq)
    (book : Book) (now : Int) (sup : Option Int)
    (hb : findId st.books req.book = some book)
    (hrd : req.reader ∈ st.readers)
    (hdate : req.borrow_date ≤ req.due_date)
    (ha : 0 < book.available_copies)
    (hnone : req.return_date = none) :
    (borrowCreate st newId req).1 = Http.created ∧
    (return_book (borrowCreate st newId req).2 newId now sup).1 = Http.ok ∧
    findId (return_book (borrowCreate st newId req).2 newId now sup).2.books
        req.book
      = some book := by
  have hc := borrowCreate_eq st newId req book hb hrd hdate ha
  have hcsnd : (borrowCreate st newId req).2 =
      { st with
          books := setId st.books req.book
            { book with available_copies := book.available_copies - 1 }
          borrows := (newId,
            ⟨req.book, req.reader, req.borrow_date, req.due_date,
             req.return_date⟩) :: st.borrows
          cache := cacheDelete (cacheDelete st.cache (bookListCacheKey []))
                     (bookDetailKey req.book) } := congrArg Prod.snd hc
  have hbor : findId (borrowCreate st newId req).2.borrows newId
      = some ⟨req.book, req.reader, req.borrow_date, req.due_date,
              req.return_date⟩ := by
    rw [hcsnd]
    exact findId_cons_self _ _ _
  have hbk : findId (borrowCreate st newId req).2.books req.book
      = some { book with available_copies := book.available_copies - 1 } := by
    rw [hcsnd]
    exact findId_setId_same st.books req.book _ book hb
  have hret := return_book_eq (borrowCreate st newId req).2 newId now sup
      ⟨req.book, req.reader, req.borrow_date, req.due_date, req.return_date⟩
      { book with available_copies := book.available_copies - 1 }
      hbor hnone hbk
  have hbeq : ({ book with
      available_copies := book.available_copies - 1 + 1 } : Book) = book := by
    have h1 : book.available_copies - 1 + 1 = book.available_copies := by
      omega
    rw [h1]
  refine ⟨congrArg Prod.fst hc, congrArg Prod.fst hret, ?_⟩
  rw [congrArg Prod.snd hret]
  exact (findId_setId_same (borrowCreate st newId req).2.books req.book _ _
    hbk).trans (congrArg Option.some hbeq)

/-- C8 witness: `C8_roundtrip` at `freshSt`, whose single book starts
and ends at `available_copies = 1`. -/
theorem C8_roundtrip_witness :
    findId freshSt.books 1 = some ⟨"Dune", 3, 1⟩ ∧
    findId (return_book (borrowCreate freshSt 9 ⟨1, 7, 0, 14, none⟩).2
        9 3 none).2.books 1
      = some ⟨"Dune", 3, 1⟩ :=
  ⟨rfl, (C8_roundtrip freshSt 9 ⟨1, 7, 0, 14, none⟩ ⟨"Dune", 3, 1⟩ 3 none
    rfl (by decide) (by decide) (by decide) rfl).2.2⟩

/-- C10: a generic update (PUT/PATCH) or delete on a BorrowRecord via
`/borrows/{id}/` — including one that sets or clears `return_date` —
leaves every Book row unchanged and deletes no cache key, on every
branch (found or not, valid or not). -/
theorem C10_generic_borrow_ops_frame (st : LibState) (pk : Nat)
    (req : BorrowCreateReq) :
    (borrowUpdate st pk req).2.books = st.books ∧
    (borrowUpdate st pk req).2.cache = st.cache ∧
    (borrowDestroy st pk).2.books = st.books ∧
    (borrowDestroy st pk).2.cache = st.cache := by
  refine ⟨?_, ?_, ?_, ?_⟩
  · unfold borrowUpdate
    repeat' split
    all_goals rfl
  · unfold borrowUpdate
    repeat' split
    all_goals rfl
  · unfold borrowDestroy
    split
    all_goals rfl
  · unfold borrowDestroy
    split
    all_goals rfl

end Library
